import Mathlib

/-!
# Lifecycle of the `carstore_car` resource

A shallow embedding of `internal/provider/car_resource.go` and
`internal/provider/provider.go`.

* Every lifecycle method is a function from the receiver, the request and the
  response value it is handed to the response value it leaves behind, together
  with the list of HTTP requests it handed to the client.  `none` stands for a
  Go panic (a method call on a nil `*http.Client`).
* The libraries the source calls are modelled only as far as the source uses
  them: `diag.Diagnostics` (append without duplicates, `HasError`), the three
  states of `types.String` / `types.Int64`, `encoding/json` decoding into the
  anonymous response structs, and `fmt.Sprintf` with `%s` / `%d`.
* What the process cannot know in advance is a parameter (`Env`): whether a URL
  parses, and what the network answers to a request.
* `log.Printf` calls and `defer apiResp.Body.Close()` have no effect on the
  values modelled here and are left out.
-/

namespace CarStore

/-! ## terraform-plugin-framework: attribute values -/

/-- The framework type `types.String` (an alias of `basetypes.StringValue`): null, unknown,
or a known string. -/
inductive basetypes.StringValue where
  | Null
  | Unknown
  | Known (value : String)
  deriving DecidableEq, Repr

/-- The framework type `types.Int64` (an alias of `basetypes.Int64Value`): null, unknown,
or a known int64. -/
inductive basetypes.Int64Value where
  | Null
  | Unknown
  | Known (value : Int)
  deriving DecidableEq, Repr

/-- Constructor `types.StringValue`: a known string. -/
abbrev types.StringValue (s : String) : basetypes.StringValue := .Known s

/-- Constructor `types.Int64Value`: a known int64. -/
abbrev types.Int64Value (n : Int) : basetypes.Int64Value := .Known n

/-- Method `ValueString`: the known value, or the empty string when null or unknown. -/
def basetypes.StringValue.ValueString : basetypes.StringValue → String
  | .Known s => s
  | _ => ""

/-- Method `ValueInt64`: the known value, or 0 when null or unknown. -/
def basetypes.Int64Value.ValueInt64 : basetypes.Int64Value → Int
  | .Known n => n
  | _ => 0

/-! ## terraform-plugin-framework: diagnostics -/

/-- Severity of a diagnostic. -/
inductive diag.Severity where
  | SeverityError
  | SeverityWarning
  deriving DecidableEq, Repr

/-- One diagnostics entry: severity, summary and detail. -/
structure diag.Diagnostic where
  Severity : diag.Severity
  Summary : String
  Detail : String
  deriving DecidableEq, Repr

/-- The collection `diag.Diagnostics`, in order of insertion. -/
abbrev diag.Diagnostics := List diag.Diagnostic

/-- Constructor `diag.NewErrorDiagnostic`. -/
def diag.NewErrorDiagnostic (summary detail : String) : diag.Diagnostic :=
  { Severity := .SeverityError, Summary := summary, Detail := detail }

/-- Method `HasError`: some entry has error severity. -/
def diag.Diagnostics.HasError (diags : diag.Diagnostics) : Bool :=
  diags.any (fun d => d.Severity == .SeverityError)

/-- Method `Contains`: some entry equals the given one. -/
def diag.Diagnostics.Contains (diags : diag.Diagnostics) (d : diag.Diagnostic) : Bool :=
  diags.any (fun e => e == d)

/-- Method `Append`: adds each given entry that the collection does not hold yet. -/
def diag.Diagnostics.Append (diags : diag.Diagnostics) (new : List diag.Diagnostic) :
    diag.Diagnostics :=
  new.foldl (fun acc d => if acc.Contains d then acc else acc ++ [d]) diags

/-- Method `AddError`: appends a new error entry. -/
def diag.Diagnostics.AddError (diags : diag.Diagnostics) (summary detail : String) :
    diag.Diagnostics :=
  diags.Append [diag.NewErrorDiagnostic summary detail]

/-! ## terraform-plugin-framework: plan, state and configuration data -/

/-- A `tfsdk.Plan`, `tfsdk.State` or `tfsdk.Config` carried by a request.  The source only
ever calls `Get(ctx, &target)` on it, so it is represented by what that call does: the
diagnostics it returns and the value it leaves in the target. -/
structure tfsdk.Data (α : Type) where
  diags : diag.Diagnostics
  value : α

/-! ## The resource's data model -/

/-- The struct `carResourceModel`. -/
structure carResourceModel where
  Id : basetypes.StringValue
  Model : basetypes.StringValue
  Year : basetypes.Int64Value
  deriving DecidableEq, Repr

/-- The `tfsdk.State` of a response: the stored record, or `none` for a null (removed) state. -/
abbrev tfsdk.State := Option carResourceModel

/-- Method `State.Set` with a `carResourceModel`, whose three tagged fields are the three
attributes of the resource schema: the state becomes that record, no diagnostics. -/
def tfsdk.State.Set (_ : tfsdk.State) (data : carResourceModel) :
    tfsdk.State × diag.Diagnostics :=
  (some data, [])

/-- Method `State.RemoveResource`: the state becomes null. -/
def tfsdk.State.RemoveResource (_ : tfsdk.State) : tfsdk.State := none

/-- The struct `resource.CreateRequest` (the field the source reads). -/
structure resource.CreateRequest where
  Plan : tfsdk.Data carResourceModel

/-- The struct `resource.ReadRequest` (the field the source reads). -/
structure resource.ReadRequest where
  State : tfsdk.Data carResourceModel

/-- The struct `resource.UpdateRequest`: the planned record and the prior state. -/
structure resource.UpdateRequest where
  Plan : tfsdk.Data carResourceModel
  State : tfsdk.Data carResourceModel

/-- The struct `resource.DeleteRequest` (the field the source reads). -/
structure resource.DeleteRequest where
  State : tfsdk.Data carResourceModel

/-- The response structs `resource.CreateResponse`, `ReadResponse`, `UpdateResponse` and
`DeleteResponse` share the two fields the source writes. -/
structure resource.Response where
  State : tfsdk.State
  Diagnostics : diag.Diagnostics
  deriving DecidableEq, Repr

/-- The statement `resp.Diagnostics.AddError(summary, detail)` on a response. -/
def resource.Response.addError (resp : resource.Response) (summary detail : String) :
    resource.Response :=
  { resp with Diagnostics := resp.Diagnostics.AddError summary detail }

/-! ## JSON values and `encoding/json` -/

/-- A JSON value.  `num` is a number literal that is an integer; `frac` is a number literal
with a fraction or an exponent, kept as its text. -/
inductive Json where
  | null
  | bool (b : Bool)
  | num (n : Int)
  | frac (literal : String)
  | str (s : String)
  | arr (items : List Json)
  | obj (members : List (String × Json))

/-- The word `encoding/json` puts into an `UnmarshalTypeError` for a value that does not
fit the Go type it is stored into. -/
def Json.kind : Json → String
  | .null => "null"
  | .bool _ => "bool"
  | .num _ => "number"
  | .frac _ => "number"
  | .str _ => "string"
  | .arr _ => "array"
  | .obj _ => "object"

/-- Text of an `UnmarshalTypeError` for a field of an anonymous struct (the struct name is
empty).  No result below depends on the wording. -/
def json.fieldTypeError (value field goType : String) : String :=
  "json: cannot unmarshal " ++ value ++ " into Go struct field ." ++ field ++
    " of type " ++ goType

/-- Text of an `UnmarshalTypeError` for the whole value.  No result below depends on the
wording. -/
def json.valueTypeError (value goType : String) : String :=
  "json: cannot unmarshal " ++ value ++ " into Go value of type " ++ goType

/-- Whether an object key selects the struct field tagged `name` (a lower-case ASCII
name): an exact match or a match up to letter case. -/
def json.keyMatches (key name : String) : Bool :=
  key.data.map Char.toLower == name.data

/-- Storing a JSON value into a Go `string` field: a string is stored, null leaves the
field alone, anything else is a type error. -/
def json.storeString (field : String) (v : Json) (cur : String) : Except String String :=
  match v with
  | .str s => .ok s
  | .null => .ok cur
  | other => .error (json.fieldTypeError other.kind field "string")

/-- Storing a JSON value into a Go `int64` field: an integer literal in range is stored,
null leaves the field alone, anything else (a literal out of range, a literal with a
fraction or an exponent, a value of another kind) is a type error. -/
def json.storeInt64 (field : String) (v : Json) (cur : Int) : Except String Int :=
  match v with
  | .num n =>
    if -9223372036854775808 ≤ n ∧ n ≤ 9223372036854775807 then .ok n
    else .error (json.fieldTypeError ("number " ++ toString n) field "int64")
  | .frac l => .error (json.fieldTypeError ("number " ++ l) field "int64")
  | .null => .ok cur
  | other => .error (json.fieldTypeError other.kind field "int64")

/-- The anonymous struct Create decodes into: `struct { ID string "json:id" }`. -/
structure createAPIResponse where
  ID : String
  deriving DecidableEq, Repr

/-- The anonymous struct Read and Update decode into: fields `id`, `model`, `year`. -/
structure carAPIResponse where
  ID : String
  Model : String
  Year : Int
  deriving DecidableEq, Repr

/-- One object member stored into the Create response struct; unknown keys are skipped. -/
def createAPIResponse.store (acc : createAPIResponse) (kv : String × Json) :
    Except String createAPIResponse :=
  if json.keyMatches kv.1 "id" then
    (json.storeString "id" kv.2 acc.ID).map (fun s => { acc with ID := s })
  else .ok acc

/-- One object member stored into the Read/Update response struct; unknown keys are
skipped. -/
def carAPIResponse.store (acc : carAPIResponse) (kv : String × Json) :
    Except String carAPIResponse :=
  if json.keyMatches kv.1 "id" then
    (json.storeString "id" kv.2 acc.ID).map (fun s => { acc with ID := s })
  else if json.keyMatches kv.1 "model" then
    (json.storeString "model" kv.2 acc.Model).map (fun s => { acc with Model := s })
  else if json.keyMatches kv.1 "year" then
    (json.storeInt64 "year" kv.2 acc.Year).map (fun n => { acc with Year := n })
  else .ok acc

/-- Members stored left to right; the first type error is the result. -/
def json.storeMembers {α : Type} (store : α → String × Json → Except String α) :
    α → List (String × Json) → Except String α
  | acc, [] => .ok acc
  | acc, kv :: rest =>
    match store acc kv with
    | .error e => .error e
    | .ok acc' => json.storeMembers store acc' rest

/-- Decoding `json.NewDecoder(body).Decode(&v)` for a struct `v` of Go type `goType` that
starts at `zero`.  The body is the first JSON value of the stream, or the syntax / read
error of the decoder.  Null leaves the struct alone, an object is stored member by member,
any other value is a type error. -/
def json.decodeStruct {α : Type} (store : α → String × Json → Except String α) (zero : α)
    (goType : String) (body : Except String Json) : Except String α :=
  match body with
  | .error e => .error e
  | .ok .null => .ok zero
  | .ok (.obj members) => json.storeMembers store zero members
  | .ok other => .error (json.valueTypeError other.kind goType)

/-- Decoding of the Create response body. -/
def decodeCreateResponse (body : Except String Json) : Except String createAPIResponse :=
  json.decodeStruct createAPIResponse.store { ID := "" }
    "struct \x7b ID string \"json:\\\"id\\\"\" \x7d" body

/-- Decoding of the Read / Update response body. -/
def decodeCarResponse (body : Except String Json) : Except String carAPIResponse :=
  json.decodeStruct carAPIResponse.store { ID := "", Model := "", Year := 0 }
    ("struct \x7b ID string \"json:\\\"id\\\"\"; Model string \"json:\\\"model\\\"\"; " ++
      "Year int64 \"json:\\\"year\\\"\" \x7d") body

/-- The anonymous request struct of Create and Update: `model` and `year`. -/
structure carRequestBody where
  Model : String
  Year : Int

/-- The function `json.Marshal` on the request struct: an object with the two tagged
fields in declaration order.  It has no failing case for a string and an int64. -/
def json.Marshal (b : carRequestBody) : Except String Json :=
  .ok (.obj [("model", .str b.Model), ("year", .num b.Year)])

/-! ## net/http -/

/-- The struct `http.Client`, as configured by the provider: a timeout in nanoseconds. -/
structure http.Client where
  Timeout : Nat
  deriving DecidableEq, Repr

/-- The constant `time.Second`, in nanoseconds. -/
def time.Second : Nat := 1000000000

/-- An outgoing `http.Request`: method, URL, JSON payload if any, headers. -/
structure http.Request where
  Method : String
  URL : String
  Body : Option Json
  Header : List (String × String)

/-- An incoming `http.Response`: the status code and the body as the JSON decoder will
see it (its first JSON value, or the decoder's error text). -/
structure http.Response where
  StatusCode : Int
  Body : Except String Json

/-- Status constant `http.StatusOK`. -/
def http.StatusOK : Int := 200
/-- Status constant `http.StatusCreated`. -/
def http.StatusCreated : Int := 201
/-- Status constant `http.StatusNoContent`. -/
def http.StatusNoContent : Int := 204
/-- Status constant `http.StatusNotFound`. -/
def http.StatusNotFound : Int := 404

/-- What lies outside the process: whether a URL parses (`none`) or with which error it is
refused, and what the client obtains for a request (a response, or a transport error). -/
structure Env where
  parseError : String → Option String
  roundTrip : http.Client → http.Request → Except String http.Response

/-- The function `http.NewRequestWithContext` for the constant methods the source passes:
it fails exactly when the URL does not parse. -/
def http.NewRequestWithContext (env : Env) (method url : String) (body : Option Json) :
    Except String http.Request :=
  match env.parseError url with
  | some err => .error err
  | none => .ok { Method := method, URL := url, Body := body, Header := [] }

/-- Method `Header.Set`: the key carries exactly the given value afterwards. -/
def http.Request.setHeader (q : http.Request) (key value : String) : http.Request :=
  { q with Header := q.Header.filter (fun kv => kv.1 != key) ++ [(key, value)] }

/-- Method `Do` of a `*http.Client`; on a nil client the call panics (`none`). -/
def http.Client.Do (env : Env) (client : Option http.Client) (q : http.Request) :
    Option (Except String http.Response) :=
  match client with
  | none => none
  | some c => some (env.roundTrip c q)

/-- The verb `%d` of `fmt.Sprintf` on a Go int. -/
def fmt.d (n : Int) : String := toString n

/-! ## car_resource.go -/

/-- The struct `carResource`; `client` is a pointer and may be nil. -/
structure carResource where
  baseURL : String
  client : Option http.Client
  deriving DecidableEq, Repr

/-- The function `NewCarResource`. -/
def NewCarResource (baseURL : String) (client : Option http.Client) : carResource :=
  { baseURL := baseURL, client := client }

/-- What a lifecycle method leaves behind: the response value and the requests it handed to
the client, in order. -/
abbrev Outcome := resource.Response × List http.Request

/-- An attribute of a schema, `schema.StringAttribute` or `schema.Int64Attribute`, with the
two flags the source sets (a flag that is not written is false). -/
inductive schema.Attribute where
  | StringAttribute (Required Computed : Bool)
  | Int64Attribute (Required Computed : Bool)
  deriving DecidableEq, Repr

/-- Method `carResource.Schema`: `id` is computed (and has no plan modifier), `model` and
`year` are required. -/
def carResource.Schema : List (String × schema.Attribute) :=
  [("id", .StringAttribute false true),
   ("model", .StringAttribute true false),
   ("year", .Int64Attribute true false)]

/-- Method `carResource.Create`. -/
def carResource.Create (env : Env) (r : carResource) (req : resource.CreateRequest)
    (resp : resource.Response) : Option Outcome :=
  -- Read Terraform plan data into the model
  let data := req.Plan.value
  let resp := { resp with Diagnostics := resp.Diagnostics.Append req.Plan.diags }
  if resp.Diagnostics.HasError then some (resp, []) else
  -- Create request body
  let reqBody : carRequestBody :=
    { Model := data.Model.ValueString, Year := data.Year.ValueInt64 }
  match json.Marshal reqBody with
  | .error err =>
    some (resp.addError "Error creating car"
      ("Could not marshal request body: " ++ err), [])
  | .ok bodyBytes =>
  -- Create API call
  match http.NewRequestWithContext env "POST" (r.baseURL ++ "/cars") (some bodyBytes) with
  | .error err =>
    some (resp.addError "Error creating car"
      ("Could not create HTTP request: " ++ err), [])
  | .ok apiReq =>
  let apiReq := apiReq.setHeader "Content-Type" "application/json"
  match http.Client.Do env r.client apiReq with
  | none => none
  | some (.error err) =>
    some (resp.addError "Error creating car"
      ("Could not make HTTP request: " ++ err), [apiReq])
  | some (.ok apiResp) =>
  if apiResp.StatusCode ≠ http.StatusCreated then
    some (resp.addError "Error creating car"
      ("Unexpected status code: " ++ fmt.d apiResp.StatusCode), [apiReq])
  else
  -- Parse response
  match decodeCreateResponse apiResp.Body with
  | .error err =>
    some (resp.addError "Error creating car"
      ("Could not decode response: " ++ err), [apiReq])
  | .ok apiResponse =>
  let data := { data with Id := types.StringValue apiResponse.ID }
  -- Save data into Terraform state
  let set := resp.State.Set data
  some ({ State := set.1, Diagnostics := resp.Diagnostics.Append set.2 }, [apiReq])

/-- Method `carResource.Read`. -/
def carResource.Read (env : Env) (r : carResource) (req : resource.ReadRequest)
    (resp : resource.Response) : Option Outcome :=
  -- Read Terraform prior state data into the model
  let data := req.State.value
  let resp := { resp with Diagnostics := resp.Diagnostics.Append req.State.diags }
  if resp.Diagnostics.HasError then some (resp, []) else
  -- Read API call
  match http.NewRequestWithContext env "GET"
      (r.baseURL ++ "/cars/" ++ data.Id.ValueString) none with
  | .error err =>
    some (resp.addError "Error reading car"
      ("Could not create HTTP request: " ++ err), [])
  | .ok apiReq =>
  let apiReq := apiReq.setHeader "Content-Type" "application/json"
  match http.Client.Do env r.client apiReq with
  | none => none
  | some (.error err) =>
    some (resp.addError "Error reading car"
      ("Could not make HTTP request: " ++ err), [apiReq])
  | some (.ok apiResp) =>
  if apiResp.StatusCode = http.StatusNotFound then
    some ({ resp with State := resp.State.RemoveResource }, [apiReq])
  else
  if apiResp.StatusCode ≠ http.StatusOK then
    some (resp.addError "Error reading car"
      ("Unexpected status code: " ++ fmt.d apiResp.StatusCode), [apiReq])
  else
  -- Parse response
  match decodeCarResponse apiResp.Body with
  | .error err =>
    some (resp.addError "Error reading car"
      ("Could not decode response: " ++ err), [apiReq])
  | .ok apiResponse =>
  let data := { data with Id := types.StringValue apiResponse.ID }
  let data := { data with Model := types.StringValue apiResponse.Model }
  let data := { data with Year := types.Int64Value apiResponse.Year }
  -- Save updated data into Terraform state
  let set := resp.State.Set data
  some ({ State := set.1, Diagnostics := resp.Diagnostics.Append set.2 }, [apiReq])

/-- Method `carResource.Update`.  The model is filled from the plan only; `req.State` is not
read. -/
def carResource.Update (env : Env) (r : carResource) (req : resource.UpdateRequest)
    (resp : resource.Response) : Option Outcome :=
  let data := req.Plan.value
  let resp := { resp with Diagnostics := resp.Diagnostics.Append req.Plan.diags }
  if resp.Diagnostics.HasError then some (resp, []) else
  -- Create request body
  let reqBody : carRequestBody :=
    { Model := data.Model.ValueString, Year := data.Year.ValueInt64 }
  match json.Marshal reqBody with
  | .error err =>
    some (resp.addError "Error updating car"
      ("Could not marshal request body: " ++ err), [])
  | .ok bodyBytes =>
  -- Update API call
  match http.NewRequestWithContext env "PUT"
      (r.baseURL ++ "/cars/" ++ data.Id.ValueString) (some bodyBytes) with
  | .error err =>
    some (resp.addError "Error updating car"
      ("Could not create HTTP request: " ++ err), [])
  | .ok apiReq =>
  let apiReq := apiReq.setHeader "Content-Type" "application/json"
  match http.Client.Do env r.client apiReq with
  | none => none
  | some (.error err) =>
    some (resp.addError "Error updating car"
      ("Could not make HTTP request: " ++ err), [apiReq])
  | some (.ok apiResp) =>
  if apiResp.StatusCode ≠ http.StatusOK then
    some (resp.addError "Error updating car"
      ("Unexpected status code: " ++ fmt.d apiResp.StatusCode), [apiReq])
  else
  -- Parse response and update data
  match decodeCarResponse apiResp.Body with
  | .error err =>
    some (resp.addError "Error updating car"
      ("Could not decode response: " ++ err), [apiReq])
  | .ok apiResponse =>
  let data := { data with Id := types.StringValue apiResponse.ID }
  let data := { data with Model := types.StringValue apiResponse.Model }
  let data := { data with Year := types.Int64Value apiResponse.Year }
  let set := resp.State.Set data
  some ({ State := set.1, Diagnostics := resp.Diagnostics.Append set.2 }, [apiReq])

/-- Method `carResource.Delete`.  It never writes `resp.State`. -/
def carResource.Delete (env : Env) (r : carResource) (req : resource.DeleteRequest)
    (resp : resource.Response) : Option Outcome :=
  let data := req.State.value
  let resp := { resp with Diagnostics := resp.Diagnostics.Append req.State.diags }
  if resp.Diagnostics.HasError then some (resp, []) else
  -- Delete API call
  match http.NewRequestWithContext env "DELETE"
      (r.baseURL ++ "/cars/" ++ data.Id.ValueString) none with
  | .error err =>
    some (resp.addError "Error deleting car"
      ("Could not create HTTP request: " ++ err), [])
  | .ok apiReq =>
  match http.Client.Do env r.client apiReq with
  | none => none
  | some (.error err) =>
    some (resp.addError "Error deleting car"
      ("Could not make HTTP request: " ++ err), [apiReq])
  | some (.ok apiResp) =>
  if apiResp.StatusCode ≠ http.StatusNoContent ∧ apiResp.StatusCode ≠ http.StatusOK then
    some (resp.addError "Error deleting car"
      ("Unexpected status code: " ++ fmt.d apiResp.StatusCode), [apiReq])
  else
  some (resp, [apiReq])

/-! ## provider.go -/

/-- The struct `carstoreProvider`; before Configure runs both fields hold their zero
value. -/
structure carstoreProvider where
  baseURL : String
  client : Option http.Client
  deriving DecidableEq, Repr

/-- The function `New`: a provider with zero-valued fields. -/
def New : Unit → carstoreProvider :=
  fun _ => { baseURL := "", client := none }

/-- Method `carstoreProvider.Schema`: one required string attribute, `base_url`. -/
def carstoreProvider.Schema : List (String × schema.Attribute) :=
  [("base_url", .StringAttribute true false)]

/-- The struct `carstoreProviderModel`. -/
structure carstoreProviderModel where
  BaseURL : basetypes.StringValue
  deriving DecidableEq, Repr

/-- The struct `provider.ConfigureRequest` (the field the source reads). -/
structure provider.ConfigureRequest where
  Config : tfsdk.Data carstoreProviderModel

/-- The struct `provider.ConfigureResponse` (the field the source writes). -/
structure provider.ConfigureResponse where
  Diagnostics : diag.Diagnostics
  deriving DecidableEq, Repr

/-- Method `carstoreProvider.Configure`: the provider and the response it leaves behind. -/
def carstoreProvider.Configure (p : carstoreProvider) (req : provider.ConfigureRequest)
    (resp : provider.ConfigureResponse) : carstoreProvider × provider.ConfigureResponse :=
  let config := req.Config.value
  let resp := { resp with Diagnostics := resp.Diagnostics.Append req.Config.diags }
  if resp.Diagnostics.HasError then (p, resp) else
  -- Configure the provider with a default timeout client
  let p := { p with client := some { Timeout := 10 * time.Second } }
  let p := { p with baseURL := config.BaseURL.ValueString }
  (p, resp)

/-- Method `carstoreProvider.Resources`: the list of resource factories.  Each factory
closes over the pointer `p` and reads `p.baseURL` and `p.client` when it is called, so it is
a function of the provider value at that moment. -/
def carstoreProvider.Resources : List (carstoreProvider → carResource) :=
  [fun p => NewCarResource p.baseURL p.client]

/-! ## Requests named in the statements -/

/-- The request of the wire protocol for Create: POST to `/cars` under the base URL, with
the JSON payload `model`, `year` and the JSON content type. -/
def postCars (baseURL model : String) (year : Int) : http.Request :=
  { Method := "POST", URL := baseURL ++ "/cars",
    Body := some (.obj [("model", .str model), ("year", .num year)]),
    Header := [("Content-Type", "application/json")] }

/-- The request of the wire protocol for Read: GET to `/cars/{id}` under the base URL. -/
def getCar (baseURL id : String) : http.Request :=
  { Method := "GET", URL := baseURL ++ "/cars/" ++ id, Body := none,
    Header := [("Content-Type", "application/json")] }

/-- The request of the wire protocol for Update: PUT to `/cars/{id}` under the base URL,
with the JSON payload `model`, `year` and the JSON content type. -/
def putCar (baseURL id model : String) (year : Int) : http.Request :=
  { Method := "PUT", URL := baseURL ++ "/cars/" ++ id,
    Body := some (.obj [("model", .str model), ("year", .num year)]),
    Header := [("Content-Type", "application/json")] }

/-- The request of the wire protocol for Delete: DELETE to `/cars/{id}` under the base
URL, without payload or header. -/
def deleteCar (baseURL id : String) : http.Request :=
  { Method := "DELETE", URL := baseURL ++ "/cars/" ++ id, Body := none, Header := [] }

/-! ## Concrete scenarios -/

/-- A remote that accepts every URL and gives the same answer to every request. -/
def constantRemote (answer : http.Response) : Env :=
  { parseError := fun _ => none, roundTrip := fun _ _ => .ok answer }

/-- A configured resource of the scenarios. -/
def scenarioResource : carResource :=
  { baseURL := "http://localhost:8080", client := some { Timeout := 10 * time.Second } }

/-- A response value as a method receives it: null state, no diagnostics. -/
def freshResponse : resource.Response := { State := none, Diagnostics := [] }

/-- The planned record of scenario A: `model = "Model S"`, `year = 2023`, `id` not yet
known. -/
def planA : carResourceModel :=
  { Id := .Unknown, Model := .Known "Model S", Year := .Known 2023 }

/-- The stored record of scenarios B to D, with `id = "abc123"`. -/
def priorB : carResourceModel :=
  { Id := .Known "abc123", Model := .Known "Model S", Year := .Known 2023 }

/-- The plan of an update as the framework hands it over for this schema: `id` is computed
and carries no plan modifier, so its planned value is unknown; `model` and `year` are the
desired values of scenario C. -/
def planC : carResourceModel :=
  { Id := .Unknown, Model := .Known "Model 3", Year := .Known 2024 }

/-- A fixed remote that answers `GET .../cars/a` with the record `b`, `Model S`, `2023`,
and every other request with the record `b`, `Model X`, `2025`. -/
def aliasRemote : Env :=
  { parseError := fun _ => none,
    roundTrip := fun _ q =>
      if q.URL = "http://localhost:8080/cars/a" then
        .ok { StatusCode := 200, Body := .ok (.obj
          [("id", .str "b"), ("model", .str "Model S"), ("year", .num 2023)]) }
      else
        .ok { StatusCode := 200, Body := .ok (.obj
          [("id", .str "b"), ("model", .str "Model X"), ("year", .num 2025)]) } }

/-- The outcome "exactly one more diagnostics entry, an error whose detail contains the
decimal text of `code`; the state as it was; `q` the one request sent". -/
def OneErrorCarrying (code : Int) (resp : resource.Response) (q : http.Request)
    (out : Option Outcome) : Prop :=
  ∃ d : diag.Diagnostic,
    out = some ({ State := resp.State, Diagnostics := resp.Diagnostics ++ [d] }, [q]) ∧
    d.Severity = .SeverityError ∧
    (toString code).data <:+: d.Detail.data

/-! ## Diagnostics lemmas -/

theorem diag.Diagnostics.Append_nil (diags : diag.Diagnostics) : diags.Append [] = diags :=
  rfl

theorem diag.Diagnostics.Contains_error_of_not_HasError (diags : diag.Diagnostics)
    (summary detail : String) (h : diags.HasError = false) :
    diags.Contains (diag.NewErrorDiagnostic summary detail) = false := by
  induction diags with
  | nil => rfl
  | cons e rest ih =>
    simp only [diag.Diagnostics.HasError, List.any_cons, Bool.or_eq_false_iff] at h
    simp only [diag.Diagnostics.Contains, List.any_cons, Bool.or_eq_false_iff]
    refine ⟨?_, ih h.2⟩
    have hsev : e.Severity ≠ .SeverityError := by simpa using h.1
    simp only [beq_eq_false_iff_ne, ne_eq]
    intro heq
    exact hsev (by rw [heq]; rfl)

theorem diag.Diagnostics.AddError_of_not_HasError (diags : diag.Diagnostics)
    (summary detail : String) (h : diags.HasError = false) :
    diags.AddError summary detail = diags ++ [diag.NewErrorDiagnostic summary detail] := by
  have hc := diag.Diagnostics.Contains_error_of_not_HasError diags summary detail h
  simp [diag.Diagnostics.AddError, diag.Diagnostics.Append, hc]

theorem resource.Response.addError_of_not_HasError (resp : resource.Response)
    (summary detail : String) (h : resp.Diagnostics.HasError = false) :
    resp.addError summary detail =
      { State := resp.State,
        Diagnostics := resp.Diagnostics ++ [diag.NewErrorDiagnostic summary detail] } := by
  simp [resource.Response.addError, diag.Diagnostics.AddError_of_not_HasError _ _ _ h]

theorem diag.Diagnostics.HasError_append_error (diags : diag.Diagnostics)
    (summary detail : String) :
    (diags ++ [diag.NewErrorDiagnostic summary detail]).HasError = true := by
  simp [diag.Diagnostics.HasError, diag.NewErrorDiagnostic]

theorem diag.Diagnostics.HasError_of_Contains_error (diags : diag.Diagnostics)
    (summary detail : String)
    (h : diags.Contains (diag.NewErrorDiagnostic summary detail) = true) :
    diags.HasError = true := by
  simp only [diag.Diagnostics.Contains, List.any_eq_true, beq_iff_eq] at h
  obtain ⟨e, he, heq⟩ := h
  simp only [diag.Diagnostics.HasError, List.any_eq_true, beq_iff_eq]
  exact ⟨e, he, by rw [heq]; rfl⟩

theorem diag.Diagnostics.AddError_HasError (diags : diag.Diagnostics)
    (summary detail : String) : (diags.AddError summary detail).HasError = true := by
  by_cases hc : diags.Contains (diag.NewErrorDiagnostic summary detail) = true
  · simpa [diag.Diagnostics.AddError, diag.Diagnostics.Append, hc] using
      diag.Diagnostics.HasError_of_Contains_error diags summary detail hc
  · simpa [diag.Diagnostics.AddError, diag.Diagnostics.Append, hc] using
      diag.Diagnostics.HasError_append_error diags summary detail

theorem resource.Response.addError_HasError (resp : resource.Response)
    (summary detail : String) : (resp.addError summary detail).Diagnostics.HasError = true :=
  diag.Diagnostics.AddError_HasError _ _ _

theorem carResource.Read_stored_inv (env : Env) (r : carResource)
    (req : resource.ReadRequest) (resp resp1 : resource.Response)
    (sent1 : List http.Request) (r1 : carResourceModel)
    (hread : r.Read env req resp = some (resp1, sent1))
    (hok : resp1.Diagnostics.HasError = false)
    (hst : resp1.State = some r1) :
    ∃ (c : http.Client) (apiResp : http.Response) (i m : String) (y : Int),
      r.client = some c ∧
      env.parseError (r.baseURL ++ "/cars/" ++ req.State.value.Id.ValueString) = none ∧
      env.roundTrip c (getCar r.baseURL req.State.value.Id.ValueString) = .ok apiResp ∧
      apiResp.StatusCode = 200 ∧
      decodeCarResponse apiResp.Body = .ok { ID := i, Model := m, Year := y } ∧
      r1 = { Id := types.StringValue i, Model := types.StringValue m,
             Year := types.Int64Value y } ∧
      sent1 = [getCar r.baseURL req.State.value.Id.ValueString] := by
  by_cases herr : (resp.Diagnostics.Append req.State.diags).HasError = true
  · simp [carResource.Read, herr] at hread
    rw [← hread.1] at hok
    simp [herr] at hok
  cases hp : env.parseError (r.baseURL ++ "/cars/" ++ req.State.value.Id.ValueString) with
  | some e =>
    simp [carResource.Read, herr, http.NewRequestWithContext, hp] at hread
    rw [← hread.1, resource.Response.addError_HasError] at hok
    simp at hok
  | none =>
  cases hc : r.client with
  | none =>
    simp [carResource.Read, herr, http.NewRequestWithContext, hp, http.Client.Do, hc] at hread
  | some c =>
  cases hd : env.roundTrip c (getCar r.baseURL req.State.value.Id.ValueString) with
  | error e =>
    simp only [getCar] at hd
    simp [carResource.Read, herr, http.NewRequestWithContext, hp, http.Client.Do, hc,
      http.Request.setHeader, hd] at hread
    rw [← hread.1, resource.Response.addError_HasError] at hok
    simp at hok
  | ok apiResp =>
  by_cases h404 : apiResp.StatusCode = 404
  · simp only [getCar] at hd
    simp [carResource.Read, herr, http.NewRequestWithContext, hp, http.Client.Do, hc,
      http.Request.setHeader, hd, h404, http.StatusNotFound,
      tfsdk.State.RemoveResource] at hread
    rw [← hread.1] at hst
    simp at hst
  by_cases h200 : apiResp.StatusCode = 200
  · cases hb : decodeCarResponse apiResp.Body with
    | error e =>
      simp only [getCar] at hd
      simp [carResource.Read, herr, http.NewRequestWithContext, hp, http.Client.Do, hc,
        http.Request.setHeader, hd, h200, http.StatusNotFound, http.StatusOK, hb] at hread
      rw [← hread.1, resource.Response.addError_HasError] at hok
      simp at hok
    | ok a =>
      refine ⟨c, apiResp, a.ID, a.Model, a.Year, rfl, rfl, hd, h200, hb, ?_, ?_⟩
      · simp only [getCar] at hd
        simp [carResource.Read, herr, http.NewRequestWithContext, hp, http.Client.Do, hc,
          http.Request.setHeader, hd, h200, http.StatusNotFound, http.StatusOK, hb,
          tfsdk.State.Set] at hread
        rw [← hread.1] at hst
        simpa using hst.symm
      · simp only [getCar] at hd
        simp [carResource.Read, herr, http.NewRequestWithContext, hp, http.Client.Do, hc,
          http.Request.setHeader, hd, h200, http.StatusNotFound, http.StatusOK, hb,
          tfsdk.State.Set] at hread
        simp [getCar, ← hread.2]
  · simp only [getCar] at hd
    simp [carResource.Read, herr, http.NewRequestWithContext, hp, http.Client.Do, hc,
      http.Request.setHeader, hd, h200, h404, http.StatusNotFound, http.StatusOK] at hread
    rw [← hread.1, resource.Response.addError_HasError] at hok
    simp at hok

/-! ## Evaluation and inversion of Read -/

theorem carResource.Read_eq_of_ok (env : Env) (r : carResource) (c : http.Client)
    (req : resource.ReadRequest) (resp : resource.Response) (apiResp : http.Response)
    (i m : String) (y : Int)
    (hclient : r.client = some c)
    (hstate : req.State.diags = [])
    (h0 : resp.Diagnostics.HasError = false)
    (hurl : env.parseError (r.baseURL ++ "/cars/" ++ req.State.value.Id.ValueString) = none)
    (hdo : env.roundTrip c (getCar r.baseURL req.State.value.Id.ValueString) = .ok apiResp)
    (hstatus : apiResp.StatusCode = 200)
    (hbody : decodeCarResponse apiResp.Body = .ok { ID := i, Model := m, Year := y }) :
    r.Read env req resp =
      some ({ State := some { Id := types.StringValue i, Model := types.StringValue m,
                              Year := types.Int64Value y },
              Diagnostics := resp.Diagnostics },
            [getCar r.baseURL req.State.value.Id.ValueString]) := by
  simp only [getCar] at hdo
  simp [carResource.Read, hstate, h0, diag.Diagnostics.Append_nil,
    http.NewRequestWithContext, hurl, http.Request.setHeader, http.Client.Do, hclient, hdo,
    hstatus, http.StatusNotFound, http.StatusOK, hbody, tfsdk.State.Set, getCar]

theorem carResource.Read_sent_GET (env : Env) (r : carResource)
    (req : resource.ReadRequest) (resp : resource.Response) (out : Outcome)
    (hread : r.Read env req resp = some out) :
    ∀ q ∈ out.2, q.Method = "GET" := by
  have key : out.2 = [] ∨ out.2 = [getCar r.baseURL req.State.value.Id.ValueString] := by
    by_cases herr : (resp.Diagnostics.Append req.State.diags).HasError = true
    · simp [carResource.Read, herr] at hread
      left; rw [← hread]
    cases hp : env.parseError (r.baseURL ++ "/cars/" ++ req.State.value.Id.ValueString) with
    | some e =>
      simp [carResource.Read, herr, http.NewRequestWithContext, hp] at hread
      left; rw [← hread]
    | none =>
    cases hc : r.client with
    | none =>
      simp [carResource.Read, herr, http.NewRequestWithContext, hp, http.Client.Do, hc]
        at hread
    | some c =>
    right
    cases hd : env.roundTrip c (getCar r.baseURL req.State.value.Id.ValueString) with
    | error e =>
      simp only [getCar] at hd
      simp [carResource.Read, herr, http.NewRequestWithContext, hp, http.Client.Do, hc,
        http.Request.setHeader, hd] at hread
      rw [← hread]; rfl
    | ok apiResp =>
    simp only [getCar] at hd
    by_cases h404 : apiResp.StatusCode = 404
    · simp [carResource.Read, herr, http.NewRequestWithContext, hp, http.Client.Do, hc,
        http.Request.setHeader, hd, h404, http.StatusNotFound] at hread
      rw [← hread]; rfl
    by_cases h200 : apiResp.StatusCode = 200
    · cases hb : decodeCarResponse apiResp.Body with
      | error e =>
        simp [carResource.Read, herr, http.NewRequestWithContext, hp, http.Client.Do, hc,
          http.Request.setHeader, hd, h200, http.StatusNotFound, http.StatusOK, hb] at hread
        rw [← hread]; rfl
      | ok a =>
        simp [carResource.Read, herr, http.NewRequestWithContext, hp, http.Client.Do, hc,
          http.Request.setHeader, hd, h200, http.StatusNotFound, http.StatusOK, hb] at hread
        rw [← hread]; rfl
    · simp [carResource.Read, herr, http.NewRequestWithContext, hp, http.Client.Do, hc,
        http.Request.setHeader, hd, h200, h404, http.StatusNotFound, http.StatusOK] at hread
      rw [← hread]; rfl
  intro q hq
  rcases key with h | h
  · rw [h] at hq; simp at hq
  · rw [h] at hq
    simp only [List.mem_singleton] at hq
    rw [hq]; rfl

/-! ## Create -/

/-- C1. Create, success path: when the plan is read without diagnostics, the request
`POST baseURL/cars` is answered with status 201 and the body decodes to the id `s`, Create
adds no diagnostics entry and stores exactly the planned record with `id` set to `s`:
`model` and `year` are the planned values, `id` is the server-issued one. -/
theorem Create_success (env : Env) (r : carResource) (c : http.Client)
    (req : resource.CreateRequest) (resp : resource.Response) (apiResp : http.Response)
    (s : String)
    (hclient : r.client = some c)
    (hplan : req.Plan.diags = [])
    (h0 : resp.Diagnostics.HasError = false)
    (hurl : env.parseError (r.baseURL ++ "/cars") = none)
    (hdo : env.roundTrip c (postCars r.baseURL req.Plan.value.Model.ValueString
      req.Plan.value.Year.ValueInt64) = .ok apiResp)
    (hstatus : apiResp.StatusCode = 201)
    (hbody : decodeCreateResponse apiResp.Body = .ok { ID := s }) :
    r.Create env req resp =
      some ({ State := some { Id := types.StringValue s, Model := req.Plan.value.Model,
                              Year := req.Plan.value.Year },
              Diagnostics := resp.Diagnostics },
            [postCars r.baseURL req.Plan.value.Model.ValueString
              req.Plan.value.Year.ValueInt64]) := by
  simp only [postCars] at hdo
  simp [carResource.Create, hplan, h0, diag.Diagnostics.Append_nil, json.Marshal,
    http.NewRequestWithContext, hurl, http.Request.setHeader, http.Client.Do, hclient, hdo,
    hstatus, http.StatusCreated, hbody, tfsdk.State.Set, postCars]

/-- Scenario A: the plan `model = "Model S"`, `year = 2023` and the answer 201 with body
`{"id":"abc123"}` give the record `abc123`, `Model S`, `2023` and no diagnostics. -/
theorem Create_success_witness :
    scenarioResource.Create
        (constantRemote { StatusCode := 201, Body := .ok (.obj [("id", .str "abc123")]) })
        { Plan := { diags := [], value := planA } } freshResponse =
      some ({ State := some { Id := .Known "abc123", Model := .Known "Model S",
                              Year := .Known 2023 },
              Diagnostics := [] },
            [postCars "http://localhost:8080" "Model S" 2023]) :=
  Create_success
    (constantRemote { StatusCode := 201, Body := .ok (.obj [("id", .str "abc123")]) })
    scenarioResource { Timeout := 10 * time.Second }
    { Plan := { diags := [], value := planA } } freshResponse
    { StatusCode := 201, Body := .ok (.obj [("id", .str "abc123")]) } "abc123"
    rfl rfl rfl rfl rfl rfl rfl

/-! ## Read -/

/-- C2. Read, drift path: when the prior state is read without diagnostics and the
request `GET baseURL/cars/{id}` is answered with status 404, whatever the body, Read
leaves a null state (the removal signal), adds no diagnostics entry and stores no
record. -/
theorem Read_not_found_removes (env : Env) (r : carResource) (c : http.Client)
    (req : resource.ReadRequest) (resp : resource.Response) (apiResp : http.Response)
    (hclient : r.client = some c)
    (hstate : req.State.diags = [])
    (h0 : resp.Diagnostics.HasError = false)
    (hurl : env.parseError (r.baseURL ++ "/cars/" ++ req.State.value.Id.ValueString) = none)
    (hdo : env.roundTrip c (getCar r.baseURL req.State.value.Id.ValueString) = .ok apiResp)
    (hstatus : apiResp.StatusCode = 404) :
    r.Read env req resp =
      some ({ State := none, Diagnostics := resp.Diagnostics },
            [getCar r.baseURL req.State.value.Id.ValueString]) := by
  simp only [getCar] at hdo
  simp [carResource.Read, hstate, h0, diag.Diagnostics.Append_nil,
    http.NewRequestWithContext, hurl, http.Request.setHeader, http.Client.Do, hclient, hdo,
    hstatus, http.StatusNotFound, tfsdk.State.RemoveResource, getCar]

/-- Scenario B: the prior record `abc123` and the answer 404 (here with a body that is
not JSON) give a null state and no diagnostics, also when the response started with the
prior record as its state. -/
theorem Read_not_found_removes_witness :
    scenarioResource.Read
        (constantRemote { StatusCode := 404, Body := .error "unexpected end of JSON input" })
        { State := { diags := [], value := priorB } }
        { State := some priorB, Diagnostics := [] } =
      some ({ State := none, Diagnostics := [] },
            [getCar "http://localhost:8080" "abc123"]) :=
  Read_not_found_removes
    (constantRemote { StatusCode := 404, Body := .error "unexpected end of JSON input" })
    scenarioResource { Timeout := 10 * time.Second }
    { State := { diags := [], value := priorB } }
    { State := some priorB, Diagnostics := [] }
    { StatusCode := 404, Body := .error "unexpected end of JSON input" }
    rfl rfl rfl rfl rfl rfl

/-- C9. Read, success path: when the prior state is read without diagnostics, the request
`GET baseURL/cars/{id}` is answered with status 200 and the body decodes to `(i, m, y)`,
Read adds no diagnostics entry, leaves a non-null state, and stores exactly the record
`(i, m, y)`; nothing of the prior record is left in it. -/
theorem Read_success (env : Env) (r : carResource) (c : http.Client)
    (req : resource.ReadRequest) (resp : resource.Response) (apiResp : http.Response)
    (i m : String) (y : Int)
    (hclient : r.client = some c)
    (hstate : req.State.diags = [])
    (h0 : resp.Diagnostics.HasError = false)
    (hurl : env.parseError (r.baseURL ++ "/cars/" ++ req.State.value.Id.ValueString) = none)
    (hdo : env.roundTrip c (getCar r.baseURL req.State.value.Id.ValueString) = .ok apiResp)
    (hstatus : apiResp.StatusCode = 200)
    (hbody : decodeCarResponse apiResp.Body = .ok { ID := i, Model := m, Year := y }) :
    r.Read env req resp =
      some ({ State := some { Id := types.StringValue i, Model := types.StringValue m,
                              Year := types.Int64Value y },
              Diagnostics := resp.Diagnostics },
            [getCar r.baseURL req.State.value.Id.ValueString]) :=
  carResource.Read_eq_of_ok env r c req resp apiResp i m y hclient hstate h0 hurl hdo hstatus hbody

/-- A Read of the prior record `abc123`, `Model S`, `2023` answered with 200 and
`{"id":"xyz789","model":"Model X","year":2025}` stores the answered record. -/
theorem Read_success_witness :
    scenarioResource.Read
        (constantRemote { StatusCode := 200, Body := .ok (.obj
          [("id", .str "xyz789"), ("model", .str "Model X"), ("year", .num 2025)]) })
        { State := { diags := [], value := priorB } }
        { State := some priorB, Diagnostics := [] } =
      some ({ State := some { Id := .Known "xyz789", Model := .Known "Model X",
                              Year := .Known 2025 },
              Diagnostics := [] },
            [getCar "http://localhost:8080" "abc123"]) :=
  Read_success
    (constantRemote { StatusCode := 200, Body := .ok (.obj
      [("id", .str "xyz789"), ("model", .str "Model X"), ("year", .num 2025)]) })
    scenarioResource { Timeout := 10 * time.Second }
    { State := { diags := [], value := priorB } }
    { State := some priorB, Diagnostics := [] }
    { StatusCode := 200, Body := .ok (.obj
      [("id", .str "xyz789"), ("model", .str "Model X"), ("year", .num 2025)]) }
    "xyz789" "Model X" 2025
    rfl rfl rfl rfl rfl rfl rfl

/-! ## Update -/

/-- C3. Update, server wins: when the plan is read without diagnostics, the request
`PUT baseURL/cars/{plan id}` is answered with status 200 and the body decodes to
`(i, m, y)`, Update adds no diagnostics entry and stores exactly the record `(i, m, y)`,
whatever the planned model and year are. -/
theorem Update_success_server_wins (env : Env) (r : carResource) (c : http.Client)
    (req : resource.UpdateRequest) (resp : resource.Response) (apiResp : http.Response)
    (i m : String) (y : Int)
    (hclient : r.client = some c)
    (hplan : req.Plan.diags = [])
    (h0 : resp.Diagnostics.HasError = false)
    (hurl : env.parseError (r.baseURL ++ "/cars/" ++ req.Plan.value.Id.ValueString) = none)
    (hdo : env.roundTrip c (putCar r.baseURL req.Plan.value.Id.ValueString
      req.Plan.value.Model.ValueString req.Plan.value.Year.ValueInt64) = .ok apiResp)
    (hstatus : apiResp.StatusCode = 200)
    (hbody : decodeCarResponse apiResp.Body = .ok { ID := i, Model := m, Year := y }) :
    r.Update env req resp =
      some ({ State := some { Id := types.StringValue i, Model := types.StringValue m,
                              Year := types.Int64Value y },
              Diagnostics := resp.Diagnostics },
            [putCar r.baseURL req.Plan.value.Id.ValueString
              req.Plan.value.Model.ValueString req.Plan.value.Year.ValueInt64]) := by
  simp only [putCar] at hdo
  simp [carResource.Update, hplan, h0, diag.Diagnostics.Append_nil, json.Marshal,
    http.NewRequestWithContext, hurl, http.Request.setHeader, http.Client.Do, hclient, hdo,
    hstatus, http.StatusOK, hbody, tfsdk.State.Set, putCar]

/-- An Update planning `Model 3`, `2024` that is answered with 200 and
`{"id":"abc123","model":"Model 3 Performance","year":2025}` stores the answered model
and year, not the planned ones. -/
theorem Update_success_server_wins_witness :
    scenarioResource.Update
        (constantRemote { StatusCode := 200, Body := .ok (.obj
          [("id", .str "abc123"), ("model", .str "Model 3 Performance"),
           ("year", .num 2025)]) })
        { Plan := { diags := [], value :=
            { Id := .Known "abc123", Model := .Known "Model 3", Year := .Known 2024 } },
          State := { diags := [], value := priorB } }
        { State := some priorB, Diagnostics := [] } =
      some ({ State := some { Id := .Known "abc123", Model := .Known "Model 3 Performance",
                              Year := .Known 2025 },
              Diagnostics := [] },
            [putCar "http://localhost:8080" "abc123" "Model 3" 2024]) :=
  Update_success_server_wins
    (constantRemote { StatusCode := 200, Body := .ok (.obj
      [("id", .str "abc123"), ("model", .str "Model 3 Performance"), ("year", .num 2025)]) })
    scenarioResource { Timeout := 10 * time.Second }
    { Plan := { diags := [], value :=
        { Id := .Known "abc123", Model := .Known "Model 3", Year := .Known 2024 } },
      State := { diags := [], value := priorB } }
    { State := some priorB, Diagnostics := [] }
    { StatusCode := 200, Body := .ok (.obj
      [("id", .str "abc123"), ("model", .str "Model 3 Performance"), ("year", .num 2025)]) }
    "abc123" "Model 3 Performance" 2025
    rfl rfl rfl rfl rfl rfl rfl

/-! ## Unexpected status -/

theorem unexpected_status_detail (code : Int) :
    (toString code).data <:+: ("Unexpected status code: " ++ fmt.d code).data := by
  rw [String.data_append]
  exact (List.suffix_append _ _).isInfix

theorem OneErrorCarrying_addError (code : Int) (resp : resource.Response)
    (q : http.Request) (summary : String) (h0 : resp.Diagnostics.HasError = false) :
    OneErrorCarrying code resp q
      (some (resp.addError summary ("Unexpected status code: " ++ fmt.d code), [q])) := by
  refine ⟨diag.NewErrorDiagnostic summary ("Unexpected status code: " ++ fmt.d code),
    ?_, rfl, unexpected_status_detail code⟩
  rw [resource.Response.addError_of_not_HasError _ _ _ h0]

/-- C4. Any unexpected status is exactly one error and no state change.  For Create, Read,
Update and Delete alike: when the request data is read without diagnostics and the request
is answered with a status outside the success set of the operation (201 for Create, 200
for Read and Update, 200 and 204 for Delete; for Read also other than 404), the operation
adds exactly one diagnostics entry, an error whose detail contains the decimal status
code, and leaves the state exactly as it was: no record stored, no removal.  For Create,
Update and Delete this also holds at status 404. -/
theorem unexpected_status_one_error :
    (∀ (env : Env) (r : carResource) (c : http.Client) (req : resource.CreateRequest)
        (resp : resource.Response) (apiResp : http.Response),
        r.client = some c → req.Plan.diags = [] → resp.Diagnostics.HasError = false →
        env.parseError (r.baseURL ++ "/cars") = none →
        env.roundTrip c (postCars r.baseURL req.Plan.value.Model.ValueString
          req.Plan.value.Year.ValueInt64) = .ok apiResp →
        apiResp.StatusCode ≠ 201 →
        OneErrorCarrying apiResp.StatusCode resp
          (postCars r.baseURL req.Plan.value.Model.ValueString
            req.Plan.value.Year.ValueInt64)
          (r.Create env req resp)) ∧
    (∀ (env : Env) (r : carResource) (c : http.Client) (req : resource.ReadRequest)
        (resp : resource.Response) (apiResp : http.Response),
        r.client = some c → req.State.diags = [] → resp.Diagnostics.HasError = false →
        env.parseError (r.baseURL ++ "/cars/" ++ req.State.value.Id.ValueString) = none →
        env.roundTrip c (getCar r.baseURL req.State.value.Id.ValueString) = .ok apiResp →
        apiResp.StatusCode ≠ 200 → apiResp.StatusCode ≠ 404 →
        OneErrorCarrying apiResp.StatusCode resp
          (getCar r.baseURL req.State.value.Id.ValueString)
          (r.Read env req resp)) ∧
    (∀ (env : Env) (r : carResource) (c : http.Client) (req : resource.UpdateRequest)
        (resp : resource.Response) (apiResp : http.Response),
        r.client = some c → req.Plan.diags = [] → resp.Diagnostics.HasError = false →
        env.parseError (r.baseURL ++ "/cars/" ++ req.Plan.value.Id.ValueString) = none →
        env.roundTrip c (putCar r.baseURL req.Plan.value.Id.ValueString
          req.Plan.value.Model.ValueString req.Plan.value.Year.ValueInt64) = .ok apiResp →
        apiResp.StatusCode ≠ 200 →
        OneErrorCarrying apiResp.StatusCode resp
          (putCar r.baseURL req.Plan.value.Id.ValueString
            req.Plan.value.Model.ValueString req.Plan.value.Year.ValueInt64)
          (r.Update env req resp)) ∧
    (∀ (env : Env) (r : carResource) (c : http.Client) (req : resource.DeleteRequest)
        (resp : resource.Response) (apiResp : http.Response),
        r.client = some c → req.State.diags = [] → resp.Diagnostics.HasError = false →
        env.parseError (r.baseURL ++ "/cars/" ++ req.State.value.Id.ValueString) = none →
        env.roundTrip c (deleteCar r.baseURL req.State.value.Id.ValueString) = .ok apiResp →
        apiResp.StatusCode ≠ 200 → apiResp.StatusCode ≠ 204 →
        OneErrorCarrying apiResp.StatusCode resp
          (deleteCar r.baseURL req.State.value.Id.ValueString)
          (r.Delete env req resp)) := by
  refine ⟨?_, ?_, ?_, ?_⟩
  · intro env r c req resp apiResp hclient hplan h0 hurl hdo hstatus
    have h := OneErrorCarrying_addError apiResp.StatusCode resp
      (postCars r.baseURL req.Plan.value.Model.ValueString req.Plan.value.Year.ValueInt64)
      "Error creating car" h0
    simp only [postCars] at hdo h ⊢
    simpa [carResource.Create, hplan, h0, diag.Diagnostics.Append_nil, json.Marshal,
      http.NewRequestWithContext, hurl, http.Request.setHeader, http.Client.Do, hclient,
      hdo, hstatus, http.StatusCreated] using h
  · intro env r c req resp apiResp hclient hstate h0 hurl hdo hstatus h404
    have h := OneErrorCarrying_addError apiResp.StatusCode resp
      (getCar r.baseURL req.State.value.Id.ValueString) "Error reading car" h0
    simp only [getCar] at hdo h ⊢
    simpa [carResource.Read, hstate, h0, diag.Diagnostics.Append_nil,
      http.NewRequestWithContext, hurl, http.Request.setHeader, http.Client.Do, hclient,
      hdo, hstatus, h404, http.StatusNotFound, http.StatusOK] using h
  · intro env r c req resp apiResp hclient hplan h0 hurl hdo hstatus
    have h := OneErrorCarrying_addError apiResp.StatusCode resp
      (putCar r.baseURL req.Plan.value.Id.ValueString req.Plan.value.Model.ValueString
        req.Plan.value.Year.ValueInt64) "Error updating car" h0
    simp only [putCar] at hdo h ⊢
    simpa [carResource.Update, hplan, h0, diag.Diagnostics.Append_nil, json.Marshal,
      http.NewRequestWithContext, hurl, http.Request.setHeader, http.Client.Do, hclient,
      hdo, hstatus, http.StatusOK] using h
  · intro env r c req resp apiResp hclient hstate h0 hurl hdo hstatus h204
    have h := OneErrorCarrying_addError apiResp.StatusCode resp
      (deleteCar r.baseURL req.State.value.Id.ValueString) "Error deleting car" h0
    simp only [deleteCar] at hdo h ⊢
    simpa [carResource.Delete, hstate, h0, diag.Diagnostics.Append_nil,
      http.NewRequestWithContext, hurl, http.Client.Do, hclient,
      hdo, hstatus, h204, http.StatusNoContent, http.StatusOK] using h

/-- Scenario E: Create answered with status 500 adds a single error entry whose detail
contains "500", and leaves the null state as it was. -/
theorem unexpected_status_one_error_witness :
    OneErrorCarrying 500 freshResponse (postCars "http://localhost:8080" "Model S" 2023)
      (scenarioResource.Create
        (constantRemote { StatusCode := 500, Body := .ok (.obj [("id", .str "abc123")]) })
        { Plan := { diags := [], value := planA } } freshResponse) ∧
    scenarioResource.Create
        (constantRemote { StatusCode := 500, Body := .ok (.obj [("id", .str "abc123")]) })
        { Plan := { diags := [], value := planA } } freshResponse =
      some ({ State := none,
              Diagnostics := [{ Severity := .SeverityError, Summary := "Error creating car",
                                Detail := "Unexpected status code: 500" }] },
            [postCars "http://localhost:8080" "Model S" 2023]) :=
  ⟨unexpected_status_one_error.1
    (constantRemote { StatusCode := 500, Body := .ok (.obj [("id", .str "abc123")]) })
    scenarioResource { Timeout := 10 * time.Second }
    { Plan := { diags := [], value := planA } } freshResponse
    { StatusCode := 500, Body := .ok (.obj [("id", .str "abc123")]) }
    rfl rfl rfl rfl rfl (by decide), rfl⟩

/-! ## Delete -/

/-- C5. Delete treats 200 and 204 identically: when the prior state is read without
diagnostics, the outcome of Delete when `DELETE baseURL/cars/{id}` is answered with 204
equals its outcome when it is answered with 200 (whatever the two bodies), and in both
cases no diagnostics entry is added and the state is not written (no record is
produced). -/
theorem Delete_ok_same_as_no_content (env200 env204 : Env) (r : carResource)
    (c : http.Client) (req : resource.DeleteRequest) (resp : resource.Response)
    (apiResp200 apiResp204 : http.Response)
    (hclient : r.client = some c)
    (hstate : req.State.diags = [])
    (h0 : resp.Diagnostics.HasError = false)
    (hurl200 : env200.parseError (r.baseURL ++ "/cars/" ++ req.State.value.Id.ValueString)
      = none)
    (hurl204 : env204.parseError (r.baseURL ++ "/cars/" ++ req.State.value.Id.ValueString)
      = none)
    (hdo200 : env200.roundTrip c (deleteCar r.baseURL req.State.value.Id.ValueString)
      = .ok apiResp200)
    (hdo204 : env204.roundTrip c (deleteCar r.baseURL req.State.value.Id.ValueString)
      = .ok apiResp204)
    (hstatus200 : apiResp200.StatusCode = 200)
    (hstatus204 : apiResp204.StatusCode = 204) :
    r.Delete env204 req resp = r.Delete env200 req resp ∧
    r.Delete env200 req resp =
      some (resp, [deleteCar r.baseURL req.State.value.Id.ValueString]) := by
  simp only [deleteCar] at hdo200 hdo204
  have h200 : r.Delete env200 req resp =
      some (resp, [deleteCar r.baseURL req.State.value.Id.ValueString]) := by
    simp [carResource.Delete, hstate, h0, diag.Diagnostics.Append_nil,
      http.NewRequestWithContext, hurl200, http.Client.Do, hclient, hdo200, hstatus200,
      http.StatusNoContent, http.StatusOK, deleteCar]
  have h204 : r.Delete env204 req resp =
      some (resp, [deleteCar r.baseURL req.State.value.Id.ValueString]) := by
    simp [carResource.Delete, hstate, h0, diag.Diagnostics.Append_nil,
      http.NewRequestWithContext, hurl204, http.Client.Do, hclient, hdo204, hstatus204,
      http.StatusNoContent, http.StatusOK, deleteCar]
  exact ⟨h204.trans h200.symm, h200⟩

/-- Scenario D: Delete of the record `abc123` answered with 204 gives the same outcome as
when it is answered with 200: no diagnostics, the state untouched. -/
theorem Delete_ok_same_as_no_content_witness :
    scenarioResource.Delete
        (constantRemote { StatusCode := 204, Body := .error "EOF" })
        { State := { diags := [], value := priorB } }
        { State := some priorB, Diagnostics := [] } =
      scenarioResource.Delete
        (constantRemote { StatusCode := 200, Body := .ok (.obj []) })
        { State := { diags := [], value := priorB } }
        { State := some priorB, Diagnostics := [] } ∧
    scenarioResource.Delete
        (constantRemote { StatusCode := 200, Body := .ok (.obj []) })
        { State := { diags := [], value := priorB } }
        { State := some priorB, Diagnostics := [] } =
      some ({ State := some priorB, Diagnostics := [] },
            [deleteCar "http://localhost:8080" "abc123"]) :=
  Delete_ok_same_as_no_content
    (constantRemote { StatusCode := 200, Body := .ok (.obj []) })
    (constantRemote { StatusCode := 204, Body := .error "EOF" })
    scenarioResource { Timeout := 10 * time.Second }
    { State := { diags := [], value := priorB } }
    { State := some priorB, Diagnostics := [] }
    { StatusCode := 200, Body := .ok (.obj []) }
    { StatusCode := 204, Body := .error "EOF" }
    rfl rfl rfl rfl rfl rfl rfl rfl rfl

/-- C6. Update does not address the prior record's id.  With the prior state holding
`id = "abc123"` and a plan whose `id` is unknown, the one request Update issues is
`PUT http://localhost:8080/cars/` (empty id in the path), not `.../cars/abc123`; and for
every input the outcome of Update is the same whatever the prior state holds, because
`req.State` is never read. -/
theorem Update_ignores_prior_id :
    (scenarioResource.Update
        (constantRemote { StatusCode := 404, Body := .error "EOF" })
        { Plan := { diags := [], value := planC },
          State := { diags := [], value := priorB } }
        { State := some priorB, Diagnostics := [] } =
      some ({ State := some priorB,
              Diagnostics := [{ Severity := .SeverityError, Summary := "Error updating car",
                                Detail := "Unexpected status code: 404" }] },
            [putCar "http://localhost:8080" "" "Model 3" 2024])) ∧
    (putCar "http://localhost:8080" "" "Model 3" 2024).URL = "http://localhost:8080/cars/" ∧
    (putCar "http://localhost:8080" "" "Model 3" 2024).URL ≠
      (putCar "http://localhost:8080" priorB.Id.ValueString "Model 3" 2024).URL ∧
    (∀ (env : Env) (r : carResource) (plan state state' : tfsdk.Data carResourceModel)
        (resp : resource.Response),
        r.Update env { Plan := plan, State := state } resp =
          r.Update env { Plan := plan, State := state' } resp) :=
  ⟨rfl, rfl, by decide, fun _ _ _ _ _ _ => rfl⟩

/-! ## Provider configuration -/

/-- C8, counterexample. A configuration whose `base_url` is the empty string is read
without diagnostics, Configure reports no error, and the car resource built by the
Resources factory afterwards holds the empty base URL.  The same happens for a null and
for an unknown `base_url`. -/
theorem Configure_accepts_empty_base_url :
    ((New ()).Configure { Config := { diags := [], value := { BaseURL := .Known "" } } }
        { Diagnostics := [] }).2.Diagnostics = [] ∧
    carstoreProvider.Resources.map (fun f => (f ((New ()).Configure
        { Config := { diags := [], value := { BaseURL := .Known "" } } }
        { Diagnostics := [] }).1).baseURL) = [""] ∧
    carstoreProvider.Resources.map (fun f => (f ((New ()).Configure
        { Config := { diags := [], value := { BaseURL := .Null } } }
        { Diagnostics := [] }).1).baseURL) = [""] ∧
    carstoreProvider.Resources.map (fun f => (f ((New ()).Configure
        { Config := { diags := [], value := { BaseURL := .Unknown } } }
        { Diagnostics := [] }).1).baseURL) = [""] :=
  ⟨rfl, rfl, rfl, rfl⟩

/-- C8, amended. Configure checks nothing about the value of `base_url`: its diagnostics
are those of reading the configuration, none of its own; when that reading has an error
the provider is left as it was; when it has none, every car resource built by the
Resources factory afterwards holds `ValueString` of the configured `base_url` (the empty
string for a null, unknown or empty value) and the client with the 10 second timeout. -/
theorem Configure_stores_base_url_unchecked (p : carstoreProvider)
    (req : provider.ConfigureRequest) (resp : provider.ConfigureResponse) :
    (p.Configure req resp).2.Diagnostics = resp.Diagnostics.Append req.Config.diags ∧
    ((resp.Diagnostics.Append req.Config.diags).HasError = true →
      (p.Configure req resp).1 = p) ∧
    ((resp.Diagnostics.Append req.Config.diags).HasError = false →
      carstoreProvider.Resources.map (fun f => f (p.Configure req resp).1) =
        [{ baseURL := req.Config.value.BaseURL.ValueString,
           client := some { Timeout := 10 * time.Second } }]) := by
  refine ⟨?_, ?_, ?_⟩
  · unfold carstoreProvider.Configure
    by_cases h : (resp.Diagnostics.Append req.Config.diags).HasError = true <;> simp [h]
  · intro h
    simp [carstoreProvider.Configure, h]
  · intro h
    simp [carstoreProvider.Configure, h, carstoreProvider.Resources, NewCarResource]

/-- A configuration with `base_url = "http://localhost:8080"`: no error, and the one
resource built afterwards holds that base URL and the 10 second client. -/
theorem Configure_stores_base_url_unchecked_witness :
    carstoreProvider.Resources.map (fun f => f ((New ()).Configure
        { Config := { diags := [], value := { BaseURL := .Known "http://localhost:8080" } } }
        { Diagnostics := [] }).1) = [scenarioResource] :=
  (Configure_stores_base_url_unchecked (New ())
    { Config := { diags := [], value := { BaseURL := .Known "http://localhost:8080" } } }
    { Diagnostics := [] }).2.2 rfl

/-! ## Read twice -/

/-- C7, counterexample. Against the fixed remote `aliasRemote`, Read of the prior record
with id `a` succeeds and stores the record `b`, `Model S`, `2023`; Read of that record
against the same remote stores `b`, `Model X`, `2025`, a different record. -/
theorem Read_not_idempotent_on_foreign_id :
    scenarioResource.Read aliasRemote
        { State := { diags := [], value :=
            { Id := .Known "a", Model := .Known "Model S", Year := .Known 2023 } } }
        freshResponse =
      some ({ State := some { Id := .Known "b", Model := .Known "Model S",
                              Year := .Known 2023 },
              Diagnostics := [] },
            [getCar "http://localhost:8080" "a"]) ∧
    scenarioResource.Read aliasRemote
        { State := { diags := [], value :=
            { Id := .Known "b", Model := .Known "Model S", Year := .Known 2023 } } }
        freshResponse =
      some ({ State := some { Id := .Known "b", Model := .Known "Model X",
                              Year := .Known 2025 },
              Diagnostics := [] },
            [getCar "http://localhost:8080" "b"]) ∧
    ({ Id := .Known "b", Model := .Known "Model X", Year := .Known 2025 } : carResourceModel)
      ≠ { Id := .Known "b", Model := .Known "Model S", Year := .Known 2023 } :=
  ⟨rfl, rfl, by decide⟩

/-- C7, amended. Read is idempotent under an unchanged remote that echoes the requested
id: for every fixed remote `env`, if Read of a prior record succeeds (no error entry) and
stores the record `r1`, and the id of `r1` is the id that was requested, then Read of
`r1` against the same remote stores `r1` again, adds no diagnostics entry and issues the
same request.  Moreover every request any Read call hands to the client has method
GET. -/
theorem Read_idempotent_when_id_echoed :
    (∀ (env : Env) (r : carResource) (req : resource.ReadRequest)
        (resp resp1 resp2 : resource.Response) (sent1 : List http.Request)
        (r1 : carResourceModel),
        r.Read env req resp = some (resp1, sent1) →
        resp1.Diagnostics.HasError = false →
        resp1.State = some r1 →
        r1.Id.ValueString = req.State.value.Id.ValueString →
        resp2.Diagnostics.HasError = false →
        r.Read env { State := { diags := [], value := r1 } } resp2 =
          some ({ State := some r1, Diagnostics := resp2.Diagnostics }, sent1)) ∧
    (∀ (env : Env) (r : carResource) (req : resource.ReadRequest)
        (resp : resource.Response) (out : Outcome),
        r.Read env req resp = some out → ∀ q ∈ out.2, q.Method = "GET") := by
  refine ⟨?_, carResource.Read_sent_GET⟩
  intro env r req resp resp1 resp2 sent1 r1 hread hok hst hid h2
  obtain ⟨c, apiResp, i, m, y, hclient, hurl, hdo, hstatus, hbody, hr1, hsent⟩ :=
    carResource.Read_stored_inv env r req resp resp1 sent1 r1 hread hok hst
  rw [← hid] at hurl hdo hsent
  have h := carResource.Read_eq_of_ok env r c { State := { diags := [], value := r1 } }
    resp2 apiResp i m y hclient rfl h2 hurl hdo hstatus hbody
  subst hr1
  rw [h, hsent]

/-- Against a remote that answers every request with 200 and the record `abc123`,
`Model 3`, `2024`, Read of the prior record `abc123` stores that record, and Read of the
stored record stores it again. -/
theorem Read_idempotent_when_id_echoed_witness :
    scenarioResource.Read
        (constantRemote { StatusCode := 200, Body := .ok (.obj
          [("id", .str "abc123"), ("model", .str "Model 3"), ("year", .num 2024)]) })
        { State := { diags := [], value :=
            { Id := .Known "abc123", Model := .Known "Model 3", Year := .Known 2024 } } }
        freshResponse =
      some ({ State := some { Id := .Known "abc123", Model := .Known "Model 3",
                              Year := .Known 2024 },
              Diagnostics := [] },
            [getCar "http://localhost:8080" "abc123"]) :=
  Read_idempotent_when_id_echoed.1
    (constantRemote { StatusCode := 200, Body := .ok (.obj
      [("id", .str "abc123"), ("model", .str "Model 3"), ("year", .num 2024)]) })
    scenarioResource
    { State := { diags := [], value := priorB } }
    { State := some priorB, Diagnostics := [] }
    { State := some { Id := .Known "abc123", Model := .Known "Model 3", Year := .Known 2024 },
      Diagnostics := [] }
    freshResponse
    [getCar "http://localhost:8080" "abc123"]
    { Id := .Known "abc123", Model := .Known "Model 3", Year := .Known 2024 }
    rfl rfl rfl rfl rfl

/-! ## The id of a created record -/

/-- C10, counterexample. Create answered with 201 and the body `{"id":""}`, or with 201
and the body `{}`, finishes with no diagnostics entry and stores a record whose id is the
empty string. -/
theorem Create_stores_empty_id :
    scenarioResource.Create
        (constantRemote { StatusCode := 201, Body := .ok (.obj [("id", .str "")]) })
        { Plan := { diags := [], value := planA } } freshResponse =
      some ({ State := some { Id := .Known "", Model := .Known "Model S",
                              Year := .Known 2023 },
              Diagnostics := [] },
            [postCars "http://localhost:8080" "Model S" 2023]) ∧
    scenarioResource.Create
        (constantRemote { StatusCode := 201, Body := .ok (.obj []) })
        { Plan := { diags := [], value := planA } } freshResponse =
      some ({ State := some { Id := .Known "", Model := .Known "Model S",
                              Year := .Known 2023 },
              Diagnostics := [] },
            [postCars "http://localhost:8080" "Model S" 2023]) ∧
    (basetypes.StringValue.Known "").ValueString = "" :=
  ⟨rfl, rfl, rfl⟩

/-- C10, amended. A successfully created record carries the server-issued id: if Create
finishes with no error entry and leaves a stored record, then
the request `POST baseURL/cars` was answered with status 201, the body decoded to an id
`s`, and the stored record is the planned record with `id = s`; so its id is non-empty
exactly when the server-issued id `s` is non-empty. -/
theorem Create_stored_id_is_server_id (env : Env) (r : carResource)
    (req : resource.CreateRequest) (resp resp1 : resource.Response)
    (sent : List http.Request) (stored : carResourceModel)
    (hcreate : r.Create env req resp = some (resp1, sent))
    (hok : resp1.Diagnostics.HasError = false)
    (hst : resp1.State = some stored) :
    ∃ (c : http.Client) (apiResp : http.Response) (s : String),
      r.client = some c ∧
      env.roundTrip c (postCars r.baseURL req.Plan.value.Model.ValueString
        req.Plan.value.Year.ValueInt64) = .ok apiResp ∧
      apiResp.StatusCode = 201 ∧
      decodeCreateResponse apiResp.Body = .ok { ID := s } ∧
      stored = { Id := types.StringValue s, Model := req.Plan.value.Model,
                 Year := req.Plan.value.Year } ∧
      (stored.Id.ValueString ≠ "" ↔ s ≠ "") := by
  by_cases herr : (resp.Diagnostics.Append req.Plan.diags).HasError = true
  · simp [carResource.Create, herr] at hcreate
    rw [← hcreate.1] at hok
    simp [herr] at hok
  cases hp : env.parseError (r.baseURL ++ "/cars") with
  | some e =>
    simp [carResource.Create, herr, json.Marshal, http.NewRequestWithContext, hp] at hcreate
    rw [← hcreate.1, resource.Response.addError_HasError] at hok
    simp at hok
  | none =>
  cases hc : r.client with
  | none =>
    simp [carResource.Create, herr, json.Marshal, http.NewRequestWithContext, hp,
      http.Client.Do, hc] at hcreate
  | some c =>
  cases hd : env.roundTrip c (postCars r.baseURL req.Plan.value.Model.ValueString
      req.Plan.value.Year.ValueInt64) with
  | error e =>
    simp only [postCars] at hd
    simp [carResource.Create, herr, json.Marshal, http.NewRequestWithContext, hp,
      http.Client.Do, hc, http.Request.setHeader, hd] at hcreate
    rw [← hcreate.1, resource.Response.addError_HasError] at hok
    simp at hok
  | ok apiResp =>
  by_cases h201 : apiResp.StatusCode = 201
  · cases hb : decodeCreateResponse apiResp.Body with
    | error e =>
      simp only [postCars] at hd
      simp [carResource.Create, herr, json.Marshal, http.NewRequestWithContext, hp,
        http.Client.Do, hc, http.Request.setHeader, hd, h201, http.StatusCreated, hb]
        at hcreate
      rw [← hcreate.1, resource.Response.addError_HasError] at hok
      simp at hok
    | ok a =>
      have hstored : stored =
          { Id := types.StringValue a.ID, Model := req.Plan.value.Model,
            Year := req.Plan.value.Year } := by
        simp only [postCars] at hd
        simp [carResource.Create, herr, json.Marshal, http.NewRequestWithContext, hp,
          http.Client.Do, hc, http.Request.setHeader, hd, h201, http.StatusCreated, hb,
          tfsdk.State.Set] at hcreate
        rw [← hcreate.1] at hst
        simpa using hst.symm
      refine ⟨c, apiResp, a.ID, rfl, hd, h201, hb, hstored, ?_⟩
      rw [hstored]
      simp [basetypes.StringValue.ValueString]
  · simp only [postCars] at hd
    simp [carResource.Create, herr, json.Marshal, http.NewRequestWithContext, hp,
      http.Client.Do, hc, http.Request.setHeader, hd, h201, http.StatusCreated] at hcreate
    rw [← hcreate.1, resource.Response.addError_HasError] at hok
    simp at hok

/-- Scenario A again: Create answered with 201 and `{"id":"abc123"}` leaves the stored
record `abc123`, `Model S`, `2023`, whose id is the decoded one and is non-empty. -/
theorem Create_stored_id_is_server_id_witness :
    ∃ (c : http.Client) (apiResp : http.Response) (s : String),
      scenarioResource.client = some c ∧
      (constantRemote { StatusCode := 201, Body := .ok (.obj [("id", .str "abc123")]) }).roundTrip
        c (postCars scenarioResource.baseURL planA.Model.ValueString planA.Year.ValueInt64)
        = .ok apiResp ∧
      apiResp.StatusCode = 201 ∧
      decodeCreateResponse apiResp.Body = .ok { ID := s } ∧
      ({ Id := .Known "abc123", Model := .Known "Model S", Year := .Known 2023 }
          : carResourceModel) =
        { Id := types.StringValue s, Model := planA.Model, Year := planA.Year } ∧
      ((basetypes.StringValue.Known "abc123").ValueString ≠ "" ↔ s ≠ "") :=
  Create_stored_id_is_server_id
    (constantRemote { StatusCode := 201, Body := .ok (.obj [("id", .str "abc123")]) })
    scenarioResource
    { Plan := { diags := [], value := planA } } freshResponse
    { State := some { Id := .Known "abc123", Model := .Known "Model S", Year := .Known 2023 },
      Diagnostics := [] }
    [postCars "http://localhost:8080" "Model S" 2023]
    { Id := .Known "abc123", Model := .Known "Model S", Year := .Known 2023 }
    rfl rfl rfl

end CarStore
